import Mathlib

/-!
Shallow embedding of the Settings & Preferences Store of `TextEditor.py`
(class `TextEditorApp`): the backing QSettings key-value store, the
`load_settings` / `save_settings_to_file` operations, the `apply_theme`
resolution, the settings-dialog save handler `save_settings`, and the
window-close handler `closeEvent`.

Modelling conventions:
- The backing store is the durable, cross-session representation that
  QSettings keeps on disk (INI file / registry).  At that level every
  scalar value is a string: `setValue` with a Python `int` persists its
  decimal representation, a Python `bool` persists as "true"/"false",
  and a `QByteArray` (window geometry / dock state) persists as an
  opaque byte blob that round-trips byte-for-byte.  A fresh `value`
  call in a later session reads the scalar back as a string, which is
  exactly what `load_settings` then processes (`int(...)`,
  `... == "true"`).
- The store is an association list; `setValue` prepends and lookups
  take the first hit, which models per-key overwrite.
- Python `int(s)` is modelled on an optional sign followed by a
  non-empty run of decimal digits; a string not of that shape makes it
  return `none`, modelling the `ValueError` it raises.  (Leading and
  trailing whitespace and digit-group underscores, which Python also
  accepts, are not modelled: no value this program persists contains
  them, and no claim depends on them.)
-/

namespace TextEditor

/-- Value persisted in the backing store: a textual scalar, or an
opaque byte blob (QByteArray, as used for window geometry/state). -/
inductive StoredValue where
  | str (s : String)
  | blob (b : List Nat)
deriving DecidableEq

/-- The QSettings backing store `QSettings("TextEditor", "Settings")`,
as an association list from fixed string keys to stored values. -/
abbrev Store := List (String × StoredValue)

/-- Lookup of a key in the backing store (QSettings `value`); the most
recent `setValue` for the key wins. -/
def getValue : Store → String → Option StoredValue
  | [], _ => none
  | (k, v) :: rest, key => if k = key then some v else getValue rest key

/-- QSettings `setValue`: record the value for the key, shadowing any
prior value. -/
def setValue (key : String) (v : StoredValue) (st : Store) : Store :=
  (key, v) :: st

/-- Decimal digit character for a value `d < 10`. -/
def digitChar (d : Nat) : Char := Char.ofNat (48 + d)

/-- Decimal digits of a natural number, most significant first
(the digits that `str(int)` writes for a non-negative value). -/
def natDigits (n : Nat) : List Char :=
  if n < 10 then [digitChar n]
  else natDigits (n / 10) ++ [digitChar (n % 10)]
termination_by n
decreasing_by exact Nat.div_lt_self (by omega) (by omega)

/-- Value of one decimal digit character, if it is one. -/
def digitVal (c : Char) : Option Nat :=
  if 48 ≤ c.toNat ∧ c.toNat ≤ 57 then some (c.toNat - 48) else none

/-- Consume decimal digit characters, accumulating their value;
fails on the first non-digit. -/
def readDigits : List Char → Nat → Option Nat
  | [], acc => some acc
  | c :: cs, acc =>
    match digitVal c with
    | some d => readDigits cs (acc * 10 + d)
    | none => none

/-- Parse a non-empty run of decimal digits. -/
def parseNat : List Char → Option Nat
  | [] => none
  | c :: cs =>
    match digitVal c with
    | some d => readDigits cs d
    | none => none

/-- Python `int(...)` applied to the character data of a string:
an optional sign followed by a non-empty digit run; `none` models the
`ValueError` raised on any other shape. -/
def pyIntChars (l : List Char) : Option Int :=
  match l with
  | [] => none
  | c :: rest =>
    if c = '-' then (parseNat rest).map (fun m => -(Int.ofNat m))
    else if c = '+' then (parseNat rest).map Int.ofNat
    else (parseNat (c :: rest)).map Int.ofNat

/-- Python `int(...)` on a string. -/
def pyInt (s : String) : Option Int := pyIntChars s.data

/-- Python `int(...)` on a value read back from the store: parses a
string; a raw byte blob raises (`TypeError`), modelled as `none`. -/
def pyIntValue : StoredValue → Option Int
  | .str s => pyInt s
  | .blob _ => none

/-- Decimal serialization of a Python `int` as QSettings persists it
(`str(int)`: a minus sign for negatives, no plus sign). -/
def intSerial (n : Int) : String :=
  if n < 0 then ⟨'-' :: natDigits n.natAbs⟩ else ⟨natDigits n.toNat⟩

/-- Serialization of a Python `bool` as QSettings persists it. -/
def boolSerial (b : Bool) : String := if b then "true" else "false"

/-- Scale factor contributed by the digits of `n`: `10 ^ (number of
decimal digits of n)`, mirroring the recursion of `natDigits`. -/
def tenPow (n : Nat) : Nat :=
  if n < 10 then 10 else tenPow (n / 10) * 10
termination_by n
decreasing_by exact Nat.div_lt_self (by omega) (by omega)

/-- Stylesheet installed by `apply_theme` when the mode is "Dark"
(`TextEditor.py` lines 143-206).  Whitespace is normalized to one line
per rule; brace characters are written with escapes.  No claim inspects
the stylesheet text, only which of the two sheets is installed. -/
def darkStyleSheet : String :=
  "QMainWindow \x7b background-color: #1e1e1e; \x7d\n" ++
  "QToolBar \x7b background-color: #252525; border: none; padding: 5px; \x7d\n" ++
  "QTextEdit \x7b background-color: #1e1e1e; color: white; selection-background-color: #0078d7; selection-color: white; border: none; \x7d\n" ++
  "QPushButton \x7b background-color: #333; color: white; border: none; padding: 5px 10px; min-width: 60px; \x7d\n" ++
  "QPushButton:hover \x7b background-color: #444; \x7d\n" ++
  "QPushButton:checked \x7b background-color: #0078d7; \x7d\n" ++
  "QDialog \x7b background-color: #252525; \x7d\n" ++
  "QLabel \x7b color: white; \x7d\n" ++
  "QGroupBox \x7b color: white; border: 1px solid #444; margin-top: 10px; padding-top: 15px; \x7d\n" ++
  "QComboBox, QSpinBox, QFontComboBox \x7b background-color: #333; color: white; border: 1px solid #555; padding: 3px; \x7d\n" ++
  "QTabWidget::pane \x7b border: none; \x7d\n" ++
  "QTabBar::tab \x7b background: #252525; color: white; padding: 8px; border: none; \x7d\n" ++
  "QTabBar::tab:selected \x7b background: #333; \x7d\n" ++
  "QRadioButton \x7b color: white; padding: 5px; \x7d\n"

/-- Stylesheet installed by `apply_theme` when the mode is "Light"
(`TextEditor.py` lines 208-272), under the same conventions as
`darkStyleSheet`. -/
def lightStyleSheet : String :=
  "QMainWindow \x7b background-color: #ffffff; \x7d\n" ++
  "QToolBar \x7b background-color: #f0f0f0; border: none; padding: 5px; \x7d\n" ++
  "QTextEdit \x7b background-color: #ffffff; color: black; selection-background-color: #0078d7; selection-color: white; border: none; \x7d\n" ++
  "QPushButton \x7b background-color: #e0e0e0; color: black; border: none; padding: 5px 10px; min-width: 60px; \x7d\n" ++
  "QPushButton:hover \x7b background-color: #d0d0d0; \x7d\n" ++
  "QPushButton:checked \x7b background-color: #0078d7; color: white; \x7d\n" ++
  "QDialog \x7b background-color: #f0f0f0; \x7d\n" ++
  "QLabel \x7b color: black; \x7d\n" ++
  "QGroupBox \x7b color: black; border: 1px solid #ccc; margin-top: 10px; padding-top: 15px; \x7d\n" ++
  "QComboBox, QSpinBox, QFontComboBox \x7b background-color: #ffffff; color: black; border: 1px solid #ccc; padding: 3px; \x7d\n" ++
  "QTabWidget::pane \x7b border: none; \x7d\n" ++
  "QTabBar::tab \x7b background: #f0f0f0; color: black; padding: 8px; border: none; \x7d\n" ++
  "QTabBar::tab:selected \x7b background: #ffffff; \x7d\n" ++
  "QRadioButton \x7b color: black; padding: 5px; \x7d\n"

/-- In-memory state of `TextEditorApp` relevant to the Preferences
Store: the five preference attributes, the text widget's current plain
text (`text_area.toPlainText()` / `setPlainText`), and the installed
stylesheet. -/
structure EditorState where
  font_name : String
  font_size : Int
  theme_mode : String
  text_content : String
  show_debug : Bool
  text_area : String
  styleSheet : String
deriving DecidableEq

/-- Embedding of `apply_theme(self, theme=None)`: when `theme` is given
it is assigned to `theme_mode` first; "Dark" and "Light" install their
stylesheets; any other mode (including "System") recursively applies
"Dark", overwriting `theme_mode`.  When `theme` is `none` the
assignment `theme_mode := m` is the identity, matching the source. -/
def applyTheme (theme : Option String) (s : EditorState) : EditorState :=
  let m := theme.getD s.theme_mode
  if m = "Dark" then { s with theme_mode := m, styleSheet := darkStyleSheet }
  else if m = "Light" then { s with theme_mode := m, styleSheet := lightStyleSheet }
  else applyTheme (some "Dark") { s with theme_mode := m }
termination_by (if theme.getD s.theme_mode = "Dark" then 0 else 1 : Nat)
decreasing_by simp_all

/-- Result of `load_settings`: the five preference fields and the
window blobs it would restore (`none` = key absent or empty, in which
case the source falls back to `setGeometry(100, 100, 800, 600)` for the
geometry and does nothing for the dock state). -/
structure LoadedSettings where
  font_name : String
  font_size : Int
  theme_mode : String
  text_content : String
  show_debug : Bool
  window_geometry : Option (List Nat)
  window_state : Option (List Nat)
deriving DecidableEq

/-- QSettings `value(key, default)` for a textual key.  A stored byte
blob under a textual key cannot be produced by this program and is
outside the modelled behavior; it is defaulted here. -/
def loadTextValue (st : Store) (key dflt : String) : String :=
  match getValue st key with
  | some (.str s) => s
  | some (.blob _) => dflt
  | none => dflt

/-- Blob restore guard of `load_settings`: `value(key)` followed by the
Python truthiness test `if geometry:` — `None` and an empty
`QByteArray` are falsy.  A textual value under a blob key cannot be
produced by this program and is outside the modelled behavior. -/
def loadBlob (st : Store) (key : String) : Option (List Nat) :=
  match getValue st key with
  | some (.blob b) => if b = [] then none else some b
  | _ => none

/-- Subexpression `int(settings.value("font_size", 16))` of
`load_settings`: a missing key yields the integer default 16, a present
value goes through Python `int(...)`. -/
def fontSizeLoad (st : Store) : Option Int :=
  match getValue st "font_size" with
  | none => some 16
  | some v => pyIntValue v

/-- Embedding of `load_settings` (`TextEditor.py` lines 460-479).
Each field is read by its fixed key with its documented default.
`font_size` goes through Python `int(...)`, which has no surrounding
try/except in the source: a stored string that does not parse raises
`ValueError`, modelled by the `none` result. -/
def load_settings (st : Store) : Option LoadedSettings :=
  match fontSizeLoad st with
  | none => none
  | some n =>
    some {
      font_name := loadTextValue st "font_name" "Arial"
      font_size := n
      theme_mode := loadTextValue st "theme_mode" "Dark"
      text_content := loadTextValue st "text_content" ""
      show_debug := loadTextValue st "show_debug" "false" == "true"
      window_geometry := loadBlob st "window_geometry"
      window_state := loadBlob st "window_state" }

/-- Embedding of `save_settings_to_file` (`TextEditor.py` lines
450-458): writes the seven keys in source order.  `geo` and `dock` are
the blobs `saveGeometry()` and `saveState()` return at the moment of
the call; the text persisted under "text_content" is the live widget
text `text_area.toPlainText()`, not the `text_content` attribute. -/
def save_settings_to_file (s : EditorState) (geo dock : List Nat) (st : Store) : Store :=
  setValue "show_debug" (.str (boolSerial s.show_debug))
    (setValue "window_state" (.blob dock)
      (setValue "window_geometry" (.blob geo)
        (setValue "text_content" (.str s.text_area)
          (setValue "theme_mode" (.str s.theme_mode)
            (setValue "font_size" (.str (intSerial s.font_size))
              (setValue "font_name" (.str s.font_name) st))))))

/-- Assignment of the loaded fields to the editor attributes, as the
five assignments of `load_settings` perform on `self`.  The text
widget itself is filled later in `__init__` via `setPlainText`. -/
def applyLoaded (s : EditorState) (l : LoadedSettings) : EditorState :=
  { s with
    font_name := l.font_name
    font_size := l.font_size
    theme_mode := l.theme_mode
    text_content := l.text_content
    show_debug := l.show_debug }

/-- Widget values the settings dialog holds when its Save button is
clicked: `theme_group.checkedId()`, the font combo's family, the size
spin box value, and the debug checkbox. -/
structure DialogState where
  theme_id : Int
  font_family : String
  size_value : Int
  debug_checked : Bool
deriving DecidableEq

/-- Embedding of `save_settings` (`TextEditor.py` lines 415-448), the
settings-dialog save handler: decode the radio id (0 ↦ "System",
1 ↦ "Dark", anything else ↦ "Light"), take font and debug flag from
the widgets, re-apply theme and font, then persist via
`save_settings_to_file`.  Debug-dock visibility handling and
`dialog.close()` are pure UI with no effect on the modelled state. -/
def save_settings (d : DialogState) (s : EditorState) (geo dock : List Nat)
    (st : Store) : EditorState × Store :=
  let mode := if d.theme_id = 0 then "System"
    else if d.theme_id = 1 then "Dark" else "Light"
  let s1 := { s with
    theme_mode := mode
    font_name := d.font_family
    font_size := d.size_value
    show_debug := d.debug_checked }
  let s2 := applyTheme none s1
  (s2, save_settings_to_file s2 geo dock st)

/-- Embedding of `closeEvent` (`TextEditor.py` lines 481-485): copy the
live widget text into the `text_content` attribute, then persist
unconditionally; the event is always accepted. -/
def closeEvent (s : EditorState) (geo dock : List Nat) (st : Store) :
    EditorState × Store :=
  let s1 := { s with text_content := s.text_area }
  (s1, save_settings_to_file s1 geo dock st)

theorem digitVal_digitChar {d : Nat} (h : d < 10) :
    digitVal (digitChar d) = some d := by
  interval_cases d <;> decide

theorem readDigits_append (n : Nat) :
    ∀ (rest : List Char) (acc : Nat),
      readDigits (natDigits n ++ rest) acc = readDigits rest (acc * tenPow n + n) := by
  induction n using Nat.strong_induction_on with
  | _ n ih =>
    intro rest acc
    by_cases h : n < 10
    · rw [natDigits, tenPow, if_pos h, if_pos h]
      simp [readDigits, digitVal_digitChar h]
    · rw [natDigits, tenPow, if_neg h, if_neg h]
      rw [List.append_assoc]
      rw [ih (n / 10) (Nat.div_lt_self (by omega) (by omega))]
      simp only [List.cons_append, List.nil_append, readDigits,
        digitVal_digitChar (Nat.mod_lt n (by omega))]
      congr 1
      have hn : n / 10 * 10 + n % 10 = n := by omega
      ring_nf
      omega

theorem natDigits_head (n : Nat) :
    ∃ c cs d, natDigits n = c :: cs ∧ digitVal c = some d := by
  induction n using Nat.strong_induction_on with
  | _ n ih =>
    by_cases h : n < 10
    · exact ⟨digitChar n, [], n, by rw [natDigits, if_pos h], digitVal_digitChar h⟩
    · obtain ⟨c, cs, d, hcs, hd⟩ := ih (n / 10) (Nat.div_lt_self (by omega) (by omega))
      exact ⟨c, cs ++ [digitChar (n % 10)], d, by rw [natDigits, if_neg h, hcs]; rfl, hd⟩

theorem readDigits_nil (acc : Nat) : readDigits [] acc = some acc := rfl

theorem readDigits_cons_digit {c : Char} {d : Nat} (h : digitVal c = some d)
    (cs : List Char) (acc : Nat) :
    readDigits (c :: cs) acc = readDigits cs (acc * 10 + d) := by
  simp [readDigits, h]

theorem parseNat_cons_digit {c : Char} {d : Nat} (h : digitVal c = some d)
    (cs : List Char) : parseNat (c :: cs) = readDigits cs d := by
  simp [parseNat, h]

theorem parseNat_natDigits (n : Nat) : parseNat (natDigits n) = some n := by
  obtain ⟨c, cs, d, hcs, hd⟩ := natDigits_head n
  have h0 := readDigits_append n [] 0
  rw [List.append_nil, hcs, readDigits_cons_digit hd, readDigits_nil] at h0
  have h1 : readDigits cs d = some n := by simpa using h0
  rw [hcs, parseNat_cons_digit hd, h1]

theorem digitVal_ne_sign {c : Char} {d : Nat} (h : digitVal c = some d) :
    c ≠ '-' ∧ c ≠ '+' := by
  simp only [digitVal] at h
  split at h
  · rename_i hc
    constructor <;> rintro rfl <;> revert hc <;> decide
  · exact absurd h (by simp)

theorem pyIntChars_natDigits (n : Nat) :
    pyIntChars (natDigits n) = some (n : Int) := by
  obtain ⟨c, cs, d, hcs, hd⟩ := natDigits_head n
  obtain ⟨hm, hp⟩ := digitVal_ne_sign hd
  rw [hcs]
  rw [pyIntChars]
  rw [if_neg hm, if_neg hp, ← hcs, parseNat_natDigits]
  rfl

theorem pyInt_intSerial (n : Int) : pyInt (intSerial n) = some n := by
  by_cases h : n < 0
  · rw [intSerial, if_pos h]
    show pyIntChars ('-' :: natDigits n.natAbs) = some n
    rw [pyIntChars, if_pos rfl, parseNat_natDigits, Option.map_some']
    congr 1
    simp only [Int.ofNat_eq_natCast]
    omega
  · rw [intSerial, if_neg h]
    show pyIntChars (natDigits n.toNat) = some n
    rw [pyIntChars_natDigits]
    congr 1
    omega

theorem applyTheme_none_eq (s : EditorState) :
    applyTheme none s =
      if s.theme_mode = "Dark" then { s with styleSheet := darkStyleSheet }
      else if s.theme_mode = "Light" then { s with styleSheet := lightStyleSheet }
      else { s with theme_mode := "Dark", styleSheet := darkStyleSheet } := by
  rw [applyTheme]
  by_cases h1 : s.theme_mode = "Dark"
  · simp [h1]
  · by_cases h2 : s.theme_mode = "Light"
    · simp [h1, h2]
    · simp only [Option.getD_none, h1, h2, if_false]
      rw [applyTheme]
      simp

theorem applyTheme_some_eq (t : String) (s : EditorState) :
    applyTheme (some t) s =
      if t = "Dark" then { s with theme_mode := t, styleSheet := darkStyleSheet }
      else if t = "Light" then { s with theme_mode := t, styleSheet := lightStyleSheet }
      else { s with theme_mode := "Dark", styleSheet := darkStyleSheet } := by
  rw [applyTheme]
  by_cases h1 : t = "Dark"
  · simp [h1]
  · by_cases h2 : t = "Light"
    · simp [h1, h2]
    · simp only [Option.getD_some, h1, h2, if_false]
      rw [applyTheme]
      simp

theorem applyTheme_mode_cases (theme : Option String) (s : EditorState) :
    (applyTheme theme s).theme_mode = "Dark" ∨
      (applyTheme theme s).theme_mode = "Light" := by
  cases theme with
  | none =>
    rw [applyTheme_none_eq]
    by_cases h1 : s.theme_mode = "Dark"
    · simp [h1]
    · by_cases h2 : s.theme_mode = "Light"
      · simp [h1, h2]
      · simp [h1, h2]
  | some t =>
    rw [applyTheme_some_eq]
    by_cases h1 : t = "Dark"
    · simp [h1]
    · by_cases h2 : t = "Light"
      · simp [h1, h2]
      · simp [h1, h2]

theorem applyTheme_preserves (theme : Option String) (s : EditorState) :
    (applyTheme theme s).font_name = s.font_name ∧
    (applyTheme theme s).font_size = s.font_size ∧
    (applyTheme theme s).text_content = s.text_content ∧
    (applyTheme theme s).show_debug = s.show_debug ∧
    (applyTheme theme s).text_area = s.text_area := by
  cases theme with
  | none =>
    rw [applyTheme_none_eq]
    split
    · exact ⟨rfl, rfl, rfl, rfl, rfl⟩
    · split
      · exact ⟨rfl, rfl, rfl, rfl, rfl⟩
      · exact ⟨rfl, rfl, rfl, rfl, rfl⟩
  | some t =>
    rw [applyTheme_some_eq]
    split
    · exact ⟨rfl, rfl, rfl, rfl, rfl⟩
    · split
      · exact ⟨rfl, rfl, rfl, rfl, rfl⟩
      · exact ⟨rfl, rfl, rfl, rfl, rfl⟩

theorem load_after_save (s : EditorState) (geo dock : List Nat) (st : Store) :
    load_settings (save_settings_to_file s geo dock st) =
      some { font_name := s.font_name
             font_size := s.font_size
             theme_mode := s.theme_mode
             text_content := s.text_area
             show_debug := s.show_debug
             window_geometry := if geo = [] then none else some geo
             window_state := if dock = [] then none else some dock } := by
  have h2 : fontSizeLoad (save_settings_to_file s geo dock st) =
      pyInt (intSerial s.font_size) := rfl
  have hb : (boolSerial s.show_debug == "true") = s.show_debug := by
    cases s.show_debug <;> rfl
  rw [load_settings, h2, pyInt_intSerial]
  show some _ = some _
  rw [show loadTextValue (save_settings_to_file s geo dock st) "show_debug" "false"
      = boolSerial s.show_debug from rfl, hb]
  rfl

theorem load_settings_fields {st : Store} {l : LoadedSettings}
    (hl : load_settings st = some l) :
    l.theme_mode = loadTextValue st "theme_mode" "Dark" ∧
      l.text_content = loadTextValue st "text_content" "" := by
  unfold load_settings at hl
  split at hl
  · exact absurd hl (by simp)
  · cases hl
    exact ⟨rfl, rfl⟩

/-- C1: for every state `s` whose widget text agrees with its
`text_content` attribute (the Preferences record `p` being saved),
`save_settings_to_file` followed by `load_settings` on the same backing
store succeeds and returns the same `font_name`, `font_size`,
`theme_mode`, `text_content` and `show_debug`; the universally
quantified `font_size` in particular covers the boundary integers 8
and 72, which the witness instantiates. -/
theorem claim_C1 (s : EditorState) (geo dock : List Nat) (st : Store)
    (h : s.text_area = s.text_content) :
    ∃ l, load_settings (save_settings_to_file s geo dock st) = some l ∧
      l.font_name = s.font_name ∧ l.font_size = s.font_size ∧
      l.theme_mode = s.theme_mode ∧ l.text_content = s.text_content ∧
      l.show_debug = s.show_debug :=
  ⟨_, load_after_save s geo dock st, rfl, rfl, rfl, h, rfl⟩

/-- Witness for C1 at the boundary font sizes 8 and 72. -/
theorem claim_C1_witness :
    (∃ l, load_settings (save_settings_to_file
        ⟨"Arial", 8, "Dark", "hi", false, "hi", ""⟩ [] [] []) = some l ∧
      l.font_name = "Arial" ∧ l.font_size = 8 ∧ l.theme_mode = "Dark" ∧
      l.text_content = "hi" ∧ l.show_debug = false) ∧
    (∃ l, load_settings (save_settings_to_file
        ⟨"Courier", 72, "Light", "x", true, "x", ""⟩ [] [] []) = some l ∧
      l.font_name = "Courier" ∧ l.font_size = 72 ∧ l.theme_mode = "Light" ∧
      l.text_content = "x" ∧ l.show_debug = true) :=
  ⟨claim_C1 ⟨"Arial", 8, "Dark", "hi", false, "hi", ""⟩ [] [] [] rfl,
   claim_C1 ⟨"Courier", 72, "Light", "x", true, "x", ""⟩ [] [] [] rfl⟩

/-- C2: `load_settings` on an empty backing store raises no error and
returns exactly the documented defaults: font_name "Arial", font_size
16, theme_mode "Dark", text_content "", show_debug false, and absent
window_geometry / window_state. -/
theorem claim_C2 :
    load_settings ([] : Store) =
      some ⟨"Arial", 16, "Dark", "", false, none, none⟩ := rfl

/-- Counterexample to C3 as stated: with "Blue" stored under
"theme_mode", `load_settings` completes with the field equal to "Blue",
which is none of the three enumerated values. -/
theorem claim_C3_counterexample :
    (load_settings [("theme_mode", StoredValue.str "Blue")]).map
        LoadedSettings.theme_mode = some "Blue" ∧
      ¬("Blue" = "System" ∨ "Blue" = "Dark" ∨ "Blue" = "Light") :=
  ⟨rfl, by decide⟩

/-- C3 (amended): `load_settings` keeps the stored theme_mode string
verbatim, so immediately after Load the field may hold an unknown
string such as "Blue"; no error is raised.  The fallback happens in the
`apply_theme` call that follows the load during startup: after Load
followed by `apply_theme`, theme_mode is always "Dark" or "Light"
(unknown strings resolve to "Dark"). -/
theorem claim_C3 (st : Store) (s : EditorState) (l : LoadedSettings)
    (m : String) (hl : load_settings st = some l)
    (hm : getValue st "theme_mode" = some (.str m)) :
    l.theme_mode = m ∧
      ((applyTheme none (applyLoaded s l)).theme_mode = "Dark" ∨
        (applyTheme none (applyLoaded s l)).theme_mode = "Light") := by
  constructor
  · rw [(load_settings_fields hl).1, loadTextValue, hm]
  · exact applyTheme_mode_cases none (applyLoaded s l)

/-- Witness for C3 on the store holding "Blue" under "theme_mode". -/
theorem claim_C3_witness :
    (⟨"Arial", 16, "Blue", "", false, none, none⟩ : LoadedSettings).theme_mode
        = "Blue" ∧
      ((applyTheme none (applyLoaded ⟨"Arial", 16, "Dark", "", false, "", ""⟩
          ⟨"Arial", 16, "Blue", "", false, none, none⟩)).theme_mode = "Dark" ∨
        (applyTheme none (applyLoaded ⟨"Arial", 16, "Dark", "", false, "", ""⟩
          ⟨"Arial", 16, "Blue", "", false, none, none⟩)).theme_mode = "Light") :=
  claim_C3 [("theme_mode", StoredValue.str "Blue")]
    ⟨"Arial", 16, "Dark", "", false, "", ""⟩
    ⟨"Arial", 16, "Blue", "", false, none, none⟩ "Blue" rfl rfl

/-- C4, evaluated at the failing input: `load_settings` on a store
whose "font_size" holds the unparseable string "abc" does not default
the field — the un-guarded `int(...)` raises `ValueError` (the `none`
result), contradicting the claim that malformed values are defensively
defaulted and never raise. -/
theorem claim_C4 :
    load_settings [("font_size", StoredValue.str "abc")] = none := rfl

/-- C5: applying the theme with theme_mode "System" installs exactly
the same stylesheet as applying it with theme_mode "Dark", whatever the
rest of the application state. -/
theorem claim_C5 (s : EditorState) :
    (applyTheme none { s with theme_mode := "System" }).styleSheet =
      (applyTheme none { s with theme_mode := "Dark" }).styleSheet := by
  rw [applyTheme_none_eq, applyTheme_none_eq]
  rfl

/-- C6: saving a state with show_debug true and loading yields
show_debug true; saving the state again with show_debug false on top of
that store yields show_debug false on the next load. -/
theorem claim_C6 (s : EditorState) (geo dock geo2 dock2 : List Nat)
    (st : Store) :
    (load_settings (save_settings_to_file { s with show_debug := true }
        geo dock st)).map LoadedSettings.show_debug = some true ∧
    (load_settings (save_settings_to_file { s with show_debug := false }
        geo2 dock2 (save_settings_to_file { s with show_debug := true }
          geo dock st))).map LoadedSettings.show_debug = some false := by
  constructor <;> rw [load_after_save] <;> rfl

/-- C7: the close handler copies the widget's current text into
text_content and persists unconditionally, and a subsequent
`load_settings` on the resulting store returns precisely that text
(e.g. the widget text "hello" comes back as text_content "hello"). -/
theorem claim_C7 (s : EditorState) (geo dock : List Nat) (st : Store) :
    (closeEvent s geo dock st).1.text_content = s.text_area ∧
    (load_settings (closeEvent s geo dock st).2).map
        LoadedSettings.text_content = some s.text_area := by
  refine ⟨rfl, ?_⟩
  show (load_settings (save_settings_to_file { s with text_content := s.text_area }
      geo dock st)).map LoadedSettings.text_content = some s.text_area
  rw [load_after_save]
  rfl

/-- C8: every call to `save_settings_to_file` writes all seven fields
under their fixed keys — font_name, font_size, theme_mode,
text_content, window_geometry, window_state, show_debug — and the new
values shadow whatever the store held before. -/
theorem claim_C8 (s : EditorState) (geo dock : List Nat) (st : Store) :
    getValue (save_settings_to_file s geo dock st) "font_name"
        = some (.str s.font_name) ∧
    getValue (save_settings_to_file s geo dock st) "font_size"
        = some (.str (intSerial s.font_size)) ∧
    getValue (save_settings_to_file s geo dock st) "theme_mode"
        = some (.str s.theme_mode) ∧
    getValue (save_settings_to_file s geo dock st) "text_content"
        = some (.str s.text_area) ∧
    getValue (save_settings_to_file s geo dock st) "window_geometry"
        = some (.blob geo) ∧
    getValue (save_settings_to_file s geo dock st) "window_state"
        = some (.blob dock) ∧
    getValue (save_settings_to_file s geo dock st) "show_debug"
        = some (.str (boolSerial s.show_debug)) :=
  ⟨rfl, rfl, rfl, rfl, rfl, rfl, rfl⟩

/-- C9: every `apply_theme` call leaves theme_mode equal to "Dark" or
"Light" — never "System" nor any other string — and in particular a
"System" selection in the settings dialog is overwritten with "Dark"
before the save handler persists, so the store receives "Dark". -/
theorem claim_C9 :
    (∀ (theme : Option String) (s : EditorState),
      (applyTheme theme s).theme_mode = "Dark" ∨
        (applyTheme theme s).theme_mode = "Light") ∧
    (∀ (d : DialogState) (s : EditorState) (geo dock : List Nat) (st : Store),
      d.theme_id = 0 →
        getValue (save_settings d s geo dock st).2 "theme_mode"
          = some (.str "Dark")) := by
  refine ⟨applyTheme_mode_cases, ?_⟩
  intro d s geo dock st h
  have hkey : ∀ (s2 : EditorState) (st2 : Store),
      getValue (save_settings_to_file s2 geo dock st2) "theme_mode"
        = some (.str s2.theme_mode) := fun _ _ => rfl
  simp only [save_settings, h, if_pos rfl]
  rw [hkey, applyTheme_none_eq]
  rfl

/-- Witness for C9 on a dialog with the "System" radio checked. -/
theorem claim_C9_witness :
    getValue (save_settings ⟨0, "Arial", 16, false⟩
        ⟨"Arial", 16, "Dark", "", false, "", ""⟩ [] [] []).2 "theme_mode"
      = some (.str "Dark") :=
  claim_C9.2 ⟨0, "Arial", 16, false⟩
    ⟨"Arial", 16, "Dark", "", false, "", ""⟩ [] [] [] rfl

/-- C10: both save paths — a bare `save_settings_to_file` and the
settings-dialog save handler — persist the live widget text under
"text_content" while leaving the in-memory text_content attribute
unchanged; only the close handler copies the widget text into the
attribute. -/
theorem claim_C10 (s : EditorState) (d : DialogState) (geo dock : List Nat)
    (st : Store) :
    getValue (save_settings_to_file s geo dock st) "text_content"
        = some (.str s.text_area) ∧
    (save_settings d s geo dock st).1.text_content = s.text_content ∧
    getValue (save_settings d s geo dock st).2 "text_content"
        = some (.str s.text_area) ∧
    (closeEvent s geo dock st).1.text_content = s.text_area := by
  refine ⟨rfl, ?_, ?_, rfl⟩
  · show (applyTheme none _).text_content = s.text_content
    exact (applyTheme_preserves none _).2.2.1
  · have hkey : ∀ (s2 : EditorState),
        getValue (save_settings_to_file s2 geo dock st) "text_content"
          = some (.str s2.text_area) := fun _ => rfl
    show getValue (save_settings_to_file (applyTheme none _) geo dock st)
        "text_content" = some (.str s.text_area)
    rw [hkey]
    exact congrArg (fun t => some (StoredValue.str t))
      (applyTheme_preserves none _).2.2.2.2

end TextEditor
